import Mathlib

/-!
# Verification of the SHEIN stock-watcher bot (`shein_stock_bot.py`)

Shallow embedding of the pure core of the bot: the snapshot cache, the
diff/alert step `build_alerts`, per-card identity extraction from
`scrape_once`, the notification formatter `notify`, the interactive
`check_now` flow, the scheduled-scan tick of `main`, and `load_cache`.
All definitions are translated from the Python source; effectful
boundaries (Playwright scraping, Telegram transport, the JSON parser,
the filesystem) enter as explicit parameters.
-/

namespace SheinBot

/-- Default catalog URL (`SHEIN_URL` with no env override, line 12). -/
def SHEIN_URL : String := "https://www.sheinindia.in/c/sverse-5939-37961"

/-- One value of the persisted cache mapping: the dict
`{"oos": ..., "title": ..., "href": ...}` written at line 271. -/
structure CacheEntry where
  oos : Bool
  title : String
  href : String
deriving DecidableEq, Repr

/-- The cache (`seen.json` contents): a Python dict from item id to entry,
modelled as an insertion-ordered association list without duplicate keys
in practice; all reasoning goes through `Snapshot.get?`. -/
abbrev Snapshot := List (String × CacheEntry)

/-- Python `cache.get(k)`: first binding of `k`, if any. -/
def Snapshot.get? (cache : Snapshot) (k : String) : Option CacheEntry :=
  match cache with
  | [] => none
  | (k', v) :: rest => if k' = k then some v else Snapshot.get? rest k

/-- Python `cache[k] = v`: replace the binding in place (Python dicts keep
insertion order and update in place), appending when `k` is absent. -/
def Snapshot.set (cache : Snapshot) (k : String) (v : CacheEntry) : Snapshot :=
  match cache with
  | [] => [(k, v)]
  | (k', v') :: rest =>
    if k' = k then (k, v) :: rest else (k', v') :: Snapshot.set rest k v

/-- One scraped item, the dict built at lines 223–228 of `scrape_once`:
`{"id": pid, "title": ..., "href": ..., "oos": oos_flag}`. -/
structure Item where
  id : String
  title : String
  href : String
  oos : Bool
deriving DecidableEq, Repr

/-- The alert test of the fallback branch (line 267):
`prev is None or (prev and prev.get("oos") is True)`.  Here `prev` is
either absent or a three-field entry dict (always truthy), so the test
reduces to: unseen, or previously recorded out of stock. -/
def restock_cond (prev : Option CacheEntry) : Bool :=
  match prev with
  | none => true
  | some e => e.oos

/-- The alert test of the `new_only` branch (line 263): `prev is None`
(the `it["oos"] is False` conjunct is kept alongside below). -/
def new_only_cond (prev : Option CacheEntry) : Bool :=
  prev.isNone

/-- Function `build_alerts(items, cache)` (lines 252–273): decide which
items to alert per `ALERT_MODE` (an explicit argument here, since the
Python reads a module-level constant), returning
`(notifications, updated_cache)`.
The Python loop appends each firing item to `notifications` in iteration
order and then unconditionally writes the item into the cache; the
recursion below conses the firing head onto the notifications of the
rest, which yields the same list in the same order. -/
def build_alerts (alert_mode : String) (items : List Item) (cache : Snapshot) :
    List Item × Snapshot :=
  match items with
  | [] => ([], cache)
  | it :: rest =>
    let prev := cache.get? it.id
    let fire :=
      if alert_mode = "new_only" then new_only_cond prev && !it.oos
      else !it.oos && restock_cond prev
    let res := build_alerts alert_mode rest
      (cache.set it.id ⟨it.oos, it.title, it.href⟩)
    (if fire then it :: res.1 else res.1, res.2)

/-- Python truthiness of `a or b` on an optional string: an absent or
empty left operand falls through to the right. -/
def py_or (a : Option String) (b : String) : String :=
  match a with
  | none => b
  | some s => if s = "" then b else s

/-- Model of `urljoin(SHEIN_URL, href)` as applied at lines 186–187, where
it only runs on hrefs starting with a slash: a root-relative path is
resolved against the origin of the default catalog page, and a
protocol-relative href receives the scheme alone. -/
def resolve_href (h : String) : String :=
  if h.data.take 2 = ['/', '/'] then "https:" ++ h
  else if h.data.take 1 = ['/'] then "https://www.sheinindia.in" ++ h
  else h

/-- Python `str.strip()`: remove leading and trailing whitespace.
Python operates on the sequence of code points, so this is modelled on
the character list of the string. -/
def py_strip (s : String) : String :=
  String.mk
    (((s.data.dropWhile Char.isWhitespace).reverse.dropWhile
        Char.isWhitespace).reverse)

/-- Python slice `s[:n]`: the first `n` code points, modelled on the
character list of the string. -/
def py_take (s : String) (n : Nat) : String :=
  String.mk (s.data.take n)

/-- Line 220: `pid = (href or (title or "")).strip()[:300]`, with `or`
read through Python truthiness.  The argument `href` is the candidate
after the relative-URL resolution at lines 186–187. -/
def compute_pid (href : Option String) (title : Option String) : String :=
  py_take (py_strip (py_or href (py_or title ""))) 300

/-- One raw card as seen by the per-card loop of `scrape_once`, with the
DOM interrogation (lines 181–217) abstracted to the fetch boundary: the
href candidate, the title candidate (already whitespace-normalized, or
absent), and the `is_oos` verdict on the badge/full text of the card. -/
structure RawCard where
  href : Option String
  title : Option String
  oos : Bool
deriving DecidableEq, Repr

/-- The accumulation loop of `scrape_once` over the located elements
(lines 176–228): per card, resolve a root-relative href, compute `pid`,
and keep the card only when `pid` is non-empty and unseen (first-wins
dedup via `seen_ids`); `title` and `href` fall back to
`"Unknown item"` and `SHEIN_URL` through Python `or`. -/
def scrape_items_go (cards : List RawCard) (seen : List String) : List Item :=
  match cards with
  | [] => []
  | c :: rest =>
    let href := c.href.map resolve_href
    let pid := compute_pid href c.title
    if pid ≠ "" ∧ pid ∉ seen then
      ⟨pid, py_or c.title "Unknown item", py_or href SHEIN_URL, c.oos⟩ ::
        scrape_items_go rest (pid :: seen)
    else scrape_items_go rest seen

/-- Entry point of the loop above, with `seen_ids = set()` (line 177). -/
def scrape_items (cards : List RawCard) : List Item :=
  scrape_items_go cards []

/-- Characters after the first occurrence of `://`, when one occurs.
Helper for the claim-side identity cascade below. -/
def after_scheme? (cs : List Char) : Option (List Char) :=
  match cs with
  | [] => none
  | ':' :: '/' :: '/' :: rest => some rest
  | _ :: rest => after_scheme? rest

/-- The path component of an absolute URL: everything from the first
slash after the `scheme://host` part.  Helper for the claim-side
identity cascade below. -/
def url_path (u : String) : String :=
  String.mk (((after_scheme? u.data).getD u.data).dropWhile
    (fun c => c ≠ '/'))

/-- Maximal runs of decimal digits occurring in a string. -/
def digit_runs (s : String) : List String :=
  ((s.toList.splitOnP (fun c => !c.isDigit)).map String.mk).filter
    (fun r => r ≠ "")

/-- First rule of the claimed cascade: a numeric product-id pattern
embedded in the URL path, modelled as a product slug ending in
`-<digits>.html`. -/
def spec_id_rule1 (p : String) : Option String :=
  if (".html".data).isSuffixOf p.data then
    match ((p.data.take (p.data.length - 5)).splitOnP
        (fun c => c == '-')).getLast? with
    | some seg =>
      if seg ≠ [] ∧ seg.all Char.isDigit then some (String.mk seg)
      else none
    | none => none
  else none

/-- Second rule of the claimed cascade: the first run of six or more
digits anywhere in the URL path. -/
def spec_id_rule2 (p : String) : Option String :=
  (digit_runs p).find? (fun r => 6 ≤ r.length)

/-- Claim-side definition, from the words of the specification rather
than the source (for comparison against `compute_pid`): identity
extraction tries, in order, a numeric product-id pattern embedded in the
URL path, then any run of six or more digits in the path, then the URL
path itself, then the title. -/
def spec_extract_id (href : Option String) (title : Option String) : String :=
  match href with
  | some u =>
    let p := url_path u
    match spec_id_rule1 p with
    | some s => s
    | none =>
      match spec_id_rule2 p with
      | some s => s
      | none => if p ≠ "" then p else title.getD ""
  | none => title.getD ""

/-- The lines assembled by `notify` (lines 279–281): a header plus one
bullet per notification, capped at 50 by `notifications[:50]`. -/
def notify_lines (notifications : List Item) : List String :=
  "🟢 <b>SHEIN new stock alert</b>:" ::
    (notifications.take 50).map
      (fun n => "• " ++ n.title ++ " — <b>In stock</b>\n" ++ n.href)

/-- Function `notify(notifications)` (lines 275–282) as the single
message text it hands to `send_telegram`: the fixed no-stock sentence on
an empty list, otherwise the joined lines. -/
def notify_message (notifications : List Item) : String :=
  if notifications = [] then "No items are in stock right now."
  else String.intercalate "\n" (notify_lines notifications)

/-- The blocked-products warning sent by `check_now` when zero products
were parsed (lines 298–306), with the adjacent Python string literals
concatenated. -/
def blocked_warning : String :=
  "⚠️ I couldn’t read the products (possibly blocked). " ++
  "I saved <code>debug.png</code> in the app folder. " ++
  "Open the Railway shell and run:\n\n" ++
  "<code>ls -l debug.png</code>\n" ++
  "Then download it with:\n" ++
  "<code>cat debug.png</code> (copy via your terminal) or use SFTP."

/-- The sequence of Telegram messages one interactive `check_now` run
(lines 284–318) sends, given the loaded cache and the fetch result;
cache clearing and persistence are filesystem effects outside this pure
view.  Zero parsed items: the blocked-products warning and stop.
Otherwise: a parsed/in-stock summary, then either the alert message or
the fixed no-new-items notice. -/
def check_now_messages (alert_mode : String) (cache : Snapshot)
    (items : List Item) : List String :=
  if items.length = 0 then [blocked_warning]
  else
    let notifications := (build_alerts alert_mode items cache).1
    let summary := "🔎 Parsed <b>" ++ toString items.length ++
      "</b> products. In stock: <b>" ++
      toString (items.filter (fun x => !x.oos)).length ++ "</b>."
    if notifications ≠ [] then [summary, notify_message notifications]
    else [summary, "No brand-new in-stock items to alert right now."]

/-- State carried by the main loop across ticks: the scan timestamp
(line 326) and the cache persisted on disk. -/
structure LoopState where
  last_scan_ts : Nat
  cache : Snapshot
deriving DecidableEq, Repr

/-- One pass of the periodic auto-scan block of `main` (lines 377–390),
given the clock reading and the outcome of `scrape_once` (an `Except`
models the exception the `try` catches).  Returns the state after the
pass together with the Telegram alert messages sent to the configured
chat.  On success the scan diffs and persists; on an exception the error
is printed and nothing else happens — but `last_scan_ts = now` sits
after the `try/except` (line 390), still inside the `if`, so the
timestamp advances either way whenever a scan was due. -/
def auto_scan_tick (scan_interval_min : Nat) (alert_mode : String)
    (chat_id_set : Bool) (st : LoopState) (now : Nat)
    (scan_result : Except String (List Item)) : LoopState × List String :=
  if scan_interval_min * 60 < now - st.last_scan_ts then
    match scan_result with
    | .ok items =>
      let res := build_alerts alert_mode items st.cache
      ({ last_scan_ts := now, cache := res.2 },
       if res.1 ≠ [] ∧ chat_id_set then [notify_message res.1] else [])
    | .error _ => ({ st with last_scan_ts := now }, [])
  else (st, [])

/-- Function `load_cache()` (lines 88–94), with the filesystem and the
JSON parser abstracted: `file_exists` stands for `CACHE_PATH.exists()`,
and `parse_result` for the outcome of `json.loads` on the file text (an
`Except` models the exception the `try` catches).  Returns the parsed
mapping, or the empty mapping when the file is missing or unparseable. -/
def load_cache (file_exists : Bool)
    (parse_result : Except String Snapshot) : Snapshot :=
  if file_exists then
    match parse_result with
    | .ok cache => cache
    | .error _ => []
  else []

/- ## Basic snapshot lemmas -/

theorem get?_set_self (cache : Snapshot) (k : String) (v : CacheEntry) :
    (cache.set k v).get? k = some v := by
  induction cache with
  | nil => simp [Snapshot.set, Snapshot.get?]
  | cons hd tl ih =>
    by_cases h : hd.1 = k <;> simp [Snapshot.set, Snapshot.get?, h, ih]

theorem get?_set_ne (cache : Snapshot) (k k' : String) (v : CacheEntry)
    (h : k' ≠ k) : (cache.set k v).get? k' = cache.get? k' := by
  induction cache with
  | nil => simp [Snapshot.set, Snapshot.get?, Ne.symm h]
  | cons hd tl ih =>
    by_cases hh : hd.1 = k
    · subst hh
      simp [Snapshot.set, Snapshot.get?, Ne.symm h, h]
    · by_cases hk' : hd.1 = k' <;>
        simp [Snapshot.set, Snapshot.get?, hh, hk', h, ih]

theorem get?_set_isSome (cache : Snapshot) (k k' : String) (v : CacheEntry)
    (h : (cache.get? k').isSome) : ((cache.set k v).get? k').isSome := by
  by_cases hk : k' = k
  · subst hk; simp [get?_set_self]
  · rwa [get?_set_ne _ _ _ _ hk]

/- ## Structure of `build_alerts` -/

/-- A key present in the cache stays present through the whole pass. -/
theorem build_alerts_preserves_isSome (alert_mode : String)
    (items : List Item) :
    ∀ (cache : Snapshot) (k : String),
      (cache.get? k).isSome →
      ((build_alerts alert_mode items cache).2.get? k).isSome := by
  induction items with
  | nil => intro cache k h; simpa [build_alerts] using h
  | cons it rest ih =>
    intro cache k h
    simp only [build_alerts]
    exact ih _ _ (get?_set_isSome _ _ _ _ h)

/-- Keys not mentioned by any current item keep their previous binding:
the cache is merged into, never pruned. -/
theorem build_alerts_get?_not_mem (alert_mode : String) (items : List Item) :
    ∀ (cache : Snapshot) (k : String),
      k ∉ items.map Item.id →
      (build_alerts alert_mode items cache).2.get? k = cache.get? k := by
  induction items with
  | nil => intro cache k _; simp [build_alerts]
  | cons it rest ih =>
    intro cache k hk
    simp only [List.map_cons, List.mem_cons] at hk
    push_neg at hk
    simp only [build_alerts]
    rw [ih _ _ hk.2, get?_set_ne _ _ _ _ hk.1]

/-- Every current item's id is bound in the output cache. -/
theorem build_alerts_mem_isSome (alert_mode : String) (items : List Item) :
    ∀ (cache : Snapshot) (it : Item), it ∈ items →
      ((build_alerts alert_mode items cache).2.get? it.id).isSome := by
  induction items with
  | nil => intro cache it h; cases h
  | cons hd rest ih =>
    intro cache it h
    simp only [build_alerts]
    rcases List.mem_cons.mp h with rfl | hmem
    · exact build_alerts_preserves_isSome _ _ _ _ (by simp [get?_set_self])
    · exact ih _ _ hmem

/-- When ids are pairwise distinct, each item ends up bound to exactly the
entry built from its own observation. -/
theorem build_alerts_get?_mem (alert_mode : String) (items : List Item) :
    ∀ (cache : Snapshot) (it : Item), (items.map Item.id).Nodup →
      it ∈ items →
      (build_alerts alert_mode items cache).2.get? it.id =
        some ⟨it.oos, it.title, it.href⟩ := by
  induction items with
  | nil => intro _ _ _ h; cases h
  | cons hd rest ih =>
    intro cache it hnd h
    simp only [List.map_cons, List.nodup_cons] at hnd
    simp only [build_alerts]
    rcases List.mem_cons.mp h with rfl | hmem
    · rw [build_alerts_get?_not_mem _ _ _ _ hnd.1, get?_set_self]
    · exact ih _ _ hnd.2 hmem

/-- Every mode other than `"new_only"` takes the fallback branch, so all
such modes compute exactly the same result as `"restock"`. -/
theorem build_alerts_mode_irrel (alert_mode : String)
    (hm : alert_mode ≠ "new_only") (items : List Item) :
    ∀ cache : Snapshot,
      build_alerts alert_mode items cache =
        build_alerts "restock" items cache := by
  induction items with
  | nil => intro cache; simp [build_alerts]
  | cons it rest ih =>
    intro cache
    have hr : ¬(("restock" : String) = "new_only") := by decide
    simp only [build_alerts, if_neg hm, if_neg hr]
    rw [ih]

/-- Alerts under `new_only` with pairwise-distinct ids: exactly the
in-stock observations previously unseen, in observation order. -/
theorem build_alerts_fst_new_only (items : List Item) :
    ∀ cache : Snapshot, (items.map Item.id).Nodup →
      (build_alerts "new_only" items cache).1 =
        items.filter (fun it => (cache.get? it.id).isNone && !it.oos) := by
  induction items with
  | nil => intro cache _; simp [build_alerts]
  | cons it rest ih =>
    intro cache hnd
    simp only [List.map_cons, List.nodup_cons] at hnd
    have hne : ∀ x ∈ rest, x.id ≠ it.id := by
      intro x hx hcontra
      exact hnd.1 (hcontra ▸ List.mem_map_of_mem Item.id hx)
    simp only [build_alerts, if_pos rfl, List.filter_cons]
    have hrest : (build_alerts "new_only" rest
        (cache.set it.id ⟨it.oos, it.title, it.href⟩)).1 =
        rest.filter (fun x => (cache.get? x.id).isNone && !x.oos) := by
      rw [ih _ hnd.2]
      apply List.filter_congr
      intro x hx
      rw [get?_set_ne _ _ _ _ (hne x hx)]
    rw [hrest]
    simp [new_only_cond]

/-- Alerts under any non-`new_only` mode with pairwise-distinct ids:
exactly the in-stock observations whose id was unseen or recorded out
of stock, in observation order. -/
theorem build_alerts_fst_else (alert_mode : String)
    (hm : alert_mode ≠ "new_only") (items : List Item) :
    ∀ cache : Snapshot, (items.map Item.id).Nodup →
      (build_alerts alert_mode items cache).1 =
        items.filter (fun it => !it.oos && restock_cond (cache.get? it.id)) := by
  induction items with
  | nil => intro cache _; simp [build_alerts]
  | cons it rest ih =>
    intro cache hnd
    simp only [List.map_cons, List.nodup_cons] at hnd
    have hne : ∀ x ∈ rest, x.id ≠ it.id := by
      intro x hx hcontra
      exact hnd.1 (hcontra ▸ List.mem_map_of_mem Item.id hx)
    simp only [build_alerts, if_neg hm, List.filter_cons]
    have hrest : (build_alerts alert_mode rest
        (cache.set it.id ⟨it.oos, it.title, it.href⟩)).1 =
        rest.filter (fun x => !x.oos && restock_cond (cache.get? x.id)) := by
      rw [ih _ hnd.2]
      apply List.filter_congr
      intro x hx
      rw [get?_set_ne _ _ _ _ (hne x hx)]
    rw [hrest]

/-- Every id a kept item carries was computed by `compute_pid` from the
(resolved) href candidate and title candidate of some input card. -/
theorem scrape_items_go_id (cards : List RawCard) :
    ∀ (seen : List String) (it : Item), it ∈ scrape_items_go cards seen →
      ∃ c ∈ cards, it.id = compute_pid (c.href.map resolve_href) c.title := by
  induction cards with
  | nil => intro seen it h; cases h
  | cons c rest ih =>
    intro seen it h
    simp only [scrape_items_go] at h
    split at h
    · rcases List.mem_cons.mp h with rfl | hmem
      · refine ⟨c, List.mem_cons_self _ _, ?_⟩
        simp
      · obtain ⟨c', hc', hid⟩ := ih _ _ hmem
        exact ⟨c', List.mem_cons_of_mem _ hc', hid⟩
    · obtain ⟨c', hc', hid⟩ := ih _ _ h
      exact ⟨c', List.mem_cons_of_mem _ hc', hid⟩

/- ## Claims -/

/-- C1, counterexample: the snapshot produced by `build_alerts` does not
contain exactly the ids of the current observations — with previous
cache binding "old" and an empty observation list, the id "old" is
absent from the observations yet still bound in the produced snapshot,
refuting the claimed full replace. -/
theorem C1_counterexample :
    (build_alerts "new_only" []
        [("old", ⟨true, "t", "h"⟩)]).2.get? "old" = some ⟨true, "t", "h"⟩ ∧
    "old" ∉ ([] : List Item).map Item.id :=
  ⟨rfl, by simp⟩

/-- C1, amended: `build_alerts` merges the current observations into the
previous snapshot rather than replacing it — every observed id ends up
bound in the produced snapshot, and every id absent from the
observations keeps its previous binding, so delisted ids are retained
rather than dropped. -/
theorem C1_snapshot_merge (alert_mode : String) (S : Snapshot)
    (O : List Item) :
    (∀ k, k ∉ O.map Item.id →
      (build_alerts alert_mode O S).2.get? k = S.get? k) ∧
    (∀ it ∈ O, ((build_alerts alert_mode O S).2.get? it.id).isSome) :=
  ⟨fun k hk => build_alerts_get?_not_mem alert_mode O S k hk,
   fun it hit => build_alerts_mem_isSome alert_mode O S it hit⟩

/-- Witness for `C1_snapshot_merge` at a concrete previous snapshot and
observation list. -/
theorem C1_snapshot_merge_witness :
    (build_alerts "new_only" [⟨"1", "ti", "hr", false⟩]
        [("old", ⟨true, "t", "h"⟩)]).2.get? "old" =
      Snapshot.get? [("old", ⟨true, "t", "h"⟩)] "old" ∧
    ((build_alerts "new_only" [⟨"1", "ti", "hr", false⟩]
        [("old", ⟨true, "t", "h"⟩)]).2.get? "1").isSome :=
  ⟨(C1_snapshot_merge "new_only" [("old", ⟨true, "t", "h"⟩)]
      [⟨"1", "ti", "hr", false⟩]).1 "old" (by decide),
   (C1_snapshot_merge "new_only" [("old", ⟨true, "t", "h"⟩)]
      [⟨"1", "ti", "hr", false⟩]).2 ⟨"1", "ti", "hr", false⟩ (by decide)⟩

/-- C2, counterexample: under mode `any_instock` the alert set is not
the set of all in-stock observations independent of the previous
snapshot — an item already recorded in stock is not re-alerted.  With
the cache binding id "1" in stock and the same item observed in stock,
the alert list is empty while the in-stock set is the whole observation
list. -/
theorem C2_counterexample :
    (build_alerts "any_instock" [⟨"1", "t", "h", false⟩]
        [("1", ⟨false, "t", "h"⟩)]).1 = [] ∧
    ([⟨"1", "t", "h", false⟩] : List Item).filter (fun i => !i.oos) =
      [⟨"1", "t", "h", false⟩] :=
  ⟨rfl, rfl⟩

/-- C2, amended: under `any_instock` the alert set does depend on the
previous snapshot — with pairwise-distinct ids it equals the restock
selection: the in-stock observations whose id was unseen or recorded
out of stock.  Items already recorded in stock are not re-alerted. -/
theorem C2_any_instock_is_restock (S : Snapshot) (O : List Item)
    (hnd : (O.map Item.id).Nodup) :
    (build_alerts "any_instock" O S).1 =
      O.filter (fun it => !it.oos && restock_cond (S.get? it.id)) :=
  build_alerts_fst_else "any_instock" (by decide) O S hnd

/-- Witness for `C2_any_instock_is_restock` at a concrete snapshot and
observation list. -/
theorem C2_any_instock_is_restock_witness :
    (build_alerts "any_instock" [⟨"1", "t", "h", false⟩]
        [("1", ⟨false, "t", "h"⟩)]).1 =
      List.filter
        (fun it => !it.oos &&
          restock_cond (Snapshot.get? [("1", ⟨false, "t", "h"⟩)] it.id))
        [⟨"1", "t", "h", false⟩] :=
  C2_any_instock_is_restock [("1", ⟨false, "t", "h"⟩)]
    [⟨"1", "t", "h", false⟩] (by decide)

/-- C3, counterexample: the item id is not computed by the claimed
cascade (product-id pattern, then a six-digit run, then the URL path,
then the title).  On a card whose href path holds no digits at all,
every reading of the cascade yields the URL path `/c/dresses`, while the
code keeps the full absolute URL as the id. -/
theorem C3_counterexample :
    (scrape_items [⟨some "https://example.com/c/dresses",
        some "Floral Dress", false⟩]).map Item.id =
      ["https://example.com/c/dresses"] ∧
    spec_extract_id (some "https://example.com/c/dresses")
        (some "Floral Dress") = "/c/dresses" ∧
    ("https://example.com/c/dresses" : String) ≠ "/c/dresses" := by
  refine ⟨by decide, by decide, by decide⟩

/-- C3, amended: the id of every kept item is the resolved href when one
is present and non-empty, else the title, else empty (and the card is
then dropped) — whitespace-stripped and truncated to 300 characters, as
computed by `compute_pid`; no digit-pattern extraction is attempted. -/
theorem C3_id_is_href_or_title (cards : List RawCard) (it : Item)
    (h : it ∈ scrape_items cards) :
    ∃ c ∈ cards, it.id = compute_pid (c.href.map resolve_href) c.title :=
  scrape_items_go_id cards [] it h

/-- Witness for `C3_id_is_href_or_title` at a concrete card list. -/
theorem C3_id_is_href_or_title_witness :
    ∃ c ∈ [(⟨some "/p/x", some "T", false⟩ : RawCard)],
      (⟨"https://www.sheinindia.in/p/x", "T",
        "https://www.sheinindia.in/p/x", false⟩ : Item).id =
        compute_pid (c.href.map resolve_href) c.title :=
  C3_id_is_href_or_title [⟨some "/p/x", some "T", false⟩]
    ⟨"https://www.sheinindia.in/p/x", "T",
      "https://www.sheinindia.in/p/x", false⟩ (by decide)

/-- C4: under `new_only` with pairwise-distinct ids, `build_alerts`
alerts exactly the in-stock observations whose id is not a key of the
previous snapshot, and re-running it on the returned snapshot with the
same observations alerts nothing. -/
theorem C4_new_only_exact_and_idempotent (S : Snapshot) (O : List Item)
    (hnd : (O.map Item.id).Nodup) :
    (build_alerts "new_only" O S).1 =
      O.filter (fun it => (S.get? it.id).isNone && !it.oos) ∧
    (build_alerts "new_only" O (build_alerts "new_only" O S).2).1 = [] := by
  refine ⟨build_alerts_fst_new_only O S hnd, ?_⟩
  rw [build_alerts_fst_new_only O _ hnd]
  apply List.filter_eq_nil_iff.mpr
  intro it hit
  obtain ⟨e, he⟩ :=
    Option.isSome_iff_exists.mp (build_alerts_mem_isSome "new_only" O S it hit)
  simp [he]

/-- Witness for `C4_new_only_exact_and_idempotent` at the scenario of
the specification: empty snapshot, one in-stock and one out-of-stock
observation. -/
theorem C4_witness :
    (build_alerts "new_only"
        [⟨"1", "t1", "h1", false⟩, ⟨"2", "t2", "h2", true⟩] []).1 =
      [⟨"1", "t1", "h1", false⟩] ∧
    (build_alerts "new_only"
        [⟨"1", "t1", "h1", false⟩, ⟨"2", "t2", "h2", true⟩]
        (build_alerts "new_only"
          [⟨"1", "t1", "h1", false⟩, ⟨"2", "t2", "h2", true⟩] []).2).1 = [] := by
  have h := C4_new_only_exact_and_idempotent []
    [⟨"1", "t1", "h1", false⟩, ⟨"2", "t2", "h2", true⟩] (by decide)
  exact ⟨by rw [h.1]; rfl, h.2⟩

/-- C5: under `restock`, an observed in-stock item whose id was absent
from the previous snapshot or recorded there out of stock is alerted,
and is not alerted again when the scan repeats on the updated snapshot
with the same observations (the snapshot now records it in stock). -/
theorem C5_restock_alert_once (S : Snapshot) (O : List Item) (it : Item)
    (hnd : (O.map Item.id).Nodup) (hmem : it ∈ O) (hstock : it.oos = false)
    (hprev : S.get? it.id = none ∨
      ∃ e, S.get? it.id = some e ∧ e.oos = true) :
    it ∈ (build_alerts "restock" O S).1 ∧
    it ∉ (build_alerts "restock" O (build_alerts "restock" O S).2).1 := by
  constructor
  · rw [build_alerts_fst_else "restock" (by decide) O S hnd]
    refine List.mem_filter.mpr ⟨hmem, ?_⟩
    rcases hprev with h | ⟨e, he, hoos⟩
    · simp [hstock, h, restock_cond]
    · simp [hstock, he, restock_cond, hoos]
  · rw [build_alerts_fst_else "restock" (by decide) O _ hnd]
    intro hcontra
    have hpred := (List.mem_filter.mp hcontra).2
    rw [build_alerts_get?_mem "restock" O S it hnd hmem] at hpred
    simp [restock_cond, hstock] at hpred

/-- Witness for `C5_restock_alert_once` at the scenario of the
specification: id "1" recorded out of stock, then observed in stock. -/
theorem C5_witness :
    (⟨"1", "t", "h", false⟩ : Item) ∈
      (build_alerts "restock" [⟨"1", "t", "h", false⟩]
        [("1", ⟨true, "t", "h"⟩)]).1 ∧
    (⟨"1", "t", "h", false⟩ : Item) ∉
      (build_alerts "restock" [⟨"1", "t", "h", false⟩]
        (build_alerts "restock" [⟨"1", "t", "h", false⟩]
          [("1", ⟨true, "t", "h"⟩)]).2).1 :=
  C5_restock_alert_once [("1", ⟨true, "t", "h"⟩)] [⟨"1", "t", "h", false⟩]
    ⟨"1", "t", "h", false⟩ (by decide) (by decide) rfl
    (Or.inr ⟨⟨true, "t", "h"⟩, rfl, rfl⟩)

/-- C6, counterexample: when a due scheduled scan fails, the loop state
still advances `last_scan_ts` to the current time (the assignment sits
after the `try/except`), so the next tick does not retry — refuting the
claim that the timestamp is not advanced on failure. -/
theorem C6_counterexample :
    (auto_scan_tick 15 "new_only" true ⟨0, []⟩ 1000
        (.error "scrape failed")).1.last_scan_ts = 1000 ∧
    (1000 : Nat) ≠ 0 :=
  ⟨rfl, by decide⟩

/-- C6, amended: a failing scheduled scan is caught — the tick completes
normally, sends nothing and leaves the cache unchanged — but
`last_scan_ts` is advanced to `now` anyway, so any tick within the next
full scan interval performs no scan at all instead of retrying. -/
theorem C6_failure_advances_ts (interval : Nat) (alert_mode : String)
    (chat : Bool) (st : LoopState) (now : Nat) (e : String)
    (hdue : interval * 60 < now - st.last_scan_ts) :
    auto_scan_tick interval alert_mode chat st now (.error e) =
      ({ last_scan_ts := now, cache := st.cache }, []) ∧
    (∀ (now' : Nat) (r : Except String (List Item)),
      now' - now ≤ interval * 60 →
      auto_scan_tick interval alert_mode chat ⟨now, st.cache⟩ now' r =
        (⟨now, st.cache⟩, [])) := by
  constructor
  · simp [auto_scan_tick, hdue]
  · intro now' r hle
    simp [auto_scan_tick, Nat.not_lt.mpr hle]

/-- Witness for `C6_failure_advances_ts`: a failed scan at time 1000
advances the timestamp, and a successful fetch at time 1500 (within the
15-minute interval) is not even attempted. -/
theorem C6_witness :
    auto_scan_tick 15 "new_only" true ⟨0, []⟩ 1000 (.error "boom") =
      ({ last_scan_ts := 1000, cache := [] }, []) ∧
    auto_scan_tick 15 "new_only" true ⟨1000, []⟩ 1500
        (.ok [⟨"1", "t", "h", false⟩]) = (⟨1000, []⟩, []) :=
  ⟨(C6_failure_advances_ts 15 "new_only" true ⟨0, []⟩ 1000 "boom"
      (by decide)).1,
   (C6_failure_advances_ts 15 "new_only" true ⟨0, []⟩ 1000 "boom"
      (by decide)).2 1500 (.ok [⟨"1", "t", "h", false⟩]) (by decide)⟩

/-- C7, counterexample: a due scheduled scan that fetches zero items
sends no Telegram message at all (alerts are empty, and `main` only
calls `notify` when there are alerts), and the interactive path sends a
blocked-products warning, not a no-items-in-stock report — refuting the
claim that every zero-item scan produces a "no items in stock" report. -/
theorem C7_counterexample :
    (auto_scan_tick 15 "new_only" true ⟨0, [("old", ⟨true, "t", "h"⟩)]⟩
        1000 (.ok [])).2 = [] ∧
    check_now_messages "new_only" [] [] = [blocked_warning] ∧
    blocked_warning ≠ "No items are in stock right now." :=
  ⟨rfl, rfl, by decide⟩

/-- C7, amended: only the interactive path reports a zero-item scan, and
it does so with the blocked-products warning rather than a
no-items-in-stock report; a scheduled zero-item scan stays silent toward
the user. -/
theorem C7_zero_item_reporting (alert_mode : String) (cache : Snapshot)
    (chat : Bool) (interval : Nat) (st : LoopState) (now : Nat) :
    check_now_messages alert_mode cache [] = [blocked_warning] ∧
    (auto_scan_tick interval alert_mode chat st now (.ok [])).2 = [] := by
  refine ⟨rfl, ?_⟩
  simp only [auto_scan_tick]
  split
  · simp [build_alerts]
  · rfl

/-- C8, counterexample: the formatter caps the listing at 50, not 30 —
given 31 notifications it emits 31 item lines (header excluded), among
them the bullet of the 31st item, where the claim allows at most 30. -/
theorem C8_counterexample :
    ((notify_lines ((List.range 31).map
        (fun i => ⟨toString i, toString i, "h", false⟩))).drop 1).length = 31 ∧
    "• 30 — <b>In stock</b>\nh" ∈
      notify_lines ((List.range 31).map
        (fun i => ⟨toString i, toString i, "h", false⟩)) ∧
    ¬(31 ≤ 30) :=
  ⟨rfl, by decide, by decide⟩

/-- C8, amended: the formatter lists at most 50 items — a header line
plus one line per item up to the cap, with no truncation notice — and
returns the fixed no-stock sentence on an empty list. -/
theorem C8_formatter (notifications : List Item) :
    (notify_lines notifications).length = 1 + min 50 notifications.length ∧
    notify_message [] = "No items are in stock right now." ∧
    (notifications ≠ [] →
      notify_message notifications =
        String.intercalate "\n" (notify_lines notifications)) := by
  refine ⟨?_, rfl, fun h => by simp [notify_message, h]⟩
  simp only [notify_lines, List.length_cons, List.length_map,
    List.length_take]
  omega

/-- Witness for `C8_formatter` at a one-element notification list. -/
theorem C8_formatter_witness :
    (notify_lines [⟨"1", "t", "h", false⟩]).length = 1 + min 50 1 ∧
    notify_message [] = "No items are in stock right now." ∧
    notify_message [⟨"1", "t", "h", false⟩] =
      String.intercalate "\n" (notify_lines [⟨"1", "t", "h", false⟩]) :=
  ⟨(C8_formatter [⟨"1", "t", "h", false⟩]).1,
   (C8_formatter []).2.1,
   (C8_formatter [⟨"1", "t", "h", false⟩]).2.2 (by decide)⟩

/-- C9: every alert mode other than `new_only` — `any_instock`,
`restock`, or any unrecognized string — runs the single fallback branch,
so `build_alerts` computes exactly the restock result: with
pairwise-distinct ids it alerts the in-stock observations whose id was
absent from the snapshot or recorded there out of stock.  There are only
two distinct behaviors. -/
theorem C9_two_behaviors (alert_mode : String) (hm : alert_mode ≠ "new_only")
    (S : Snapshot) (O : List Item) (hnd : (O.map Item.id).Nodup) :
    build_alerts alert_mode O S = build_alerts "restock" O S ∧
    (build_alerts alert_mode O S).1 =
      O.filter (fun it => !it.oos && restock_cond (S.get? it.id)) :=
  ⟨build_alerts_mode_irrel alert_mode hm O S,
   build_alerts_fst_else alert_mode hm O S hnd⟩

/-- Witness for `C9_two_behaviors` at an unrecognized mode string and a
concrete snapshot and observation list. -/
theorem C9_two_behaviors_witness :
    build_alerts "garbage_mode" [⟨"1", "t", "h", false⟩]
        [("1", ⟨false, "t", "h"⟩)] =
      build_alerts "restock" [⟨"1", "t", "h", false⟩]
        [("1", ⟨false, "t", "h"⟩)] ∧
    (build_alerts "garbage_mode" [⟨"1", "t", "h", false⟩]
        [("1", ⟨false, "t", "h"⟩)]).1 =
      List.filter
        (fun it => !it.oos &&
          restock_cond (Snapshot.get? [("1", ⟨false, "t", "h"⟩)] it.id))
        [⟨"1", "t", "h", false⟩] :=
  C9_two_behaviors "garbage_mode" (by decide)
    [("1", ⟨false, "t", "h"⟩)] [⟨"1", "t", "h", false⟩] (by decide)

/-- C10: `load_cache` returns the empty mapping instead of raising both
when the snapshot file is missing and when its contents fail to parse,
so a corrupt persisted snapshot never aborts a scan — it proceeds as if
no prior record existed. -/
theorem C10_load_cache_total (parse_result : Except String Snapshot)
    (e : String) :
    load_cache false parse_result = [] ∧
    load_cache true (.error e) = [] :=
  ⟨rfl, rfl⟩

end SheinBot
